import Mathlib

/-!
Shallow embedding of `src/gaze_tracking/gaze_tracking.py` (class `GazeTracking`).

The external collaborators (dlib face detector, landmark predictor, the `Eye`
and `Calibration` classes) are modelled as opaque data: an `Eye` carries the
fields the orchestrator reads (`origin`, `center`, `pupil`, `blinking`), and
detection functions are parameters of the `refresh`/`_analyze` model.

Python runtime behaviour is made explicit: a method that can raise returns
`Except PyError _`; a method that can return `None` returns an `Option` inside.
Machine arithmetic: pupil/origin/center coordinates are integers (`ℤ`) and
closure ratios and gaze ratios are exact rationals (`ℚ`), matching Python's
arbitrary-precision ints and its (here always short, exactly representable)
decimal literals.
-/

namespace GazeTrack

/-- Python exceptions that the embedded methods can raise. -/
inductive PyError where
  | attributeError
  | typeError
  | zeroDivisionError
  | indexError
deriving DecidableEq, Repr

/-- `Pupil`: integer coordinates relative to the eye-region origin. -/
structure Pupil where
  x : ℤ
  y : ℤ
deriving DecidableEq, Repr

/-- The fields of the external `Eye` object that `GazeTracking` reads:
`origin` (frame coordinates of the eye box), `center` (local eye-region
center), `pupil` (absent when pupil localization failed), and the
closure ratio `blinking`. -/
structure Eye where
  origin : ℤ × ℤ
  center : ℤ × ℤ
  pupil : Option Pupil
  blinking : ℚ
deriving DecidableEq, Repr

/-- The mutable state of a `GazeTracking` object: the current frame and the
two per-frame `Eye` models, each possibly `None`. -/
structure GazeTracking (Frame : Type) where
  frame : Option Frame
  eye_left : Option Eye
  eye_right : Option Eye
deriving DecidableEq, Repr

/-! Module-level threshold constants of `gaze_tracking.py` (lines 10-23). -/

def RIGHT_THRESHOLD : ℚ := 0.30
def LEFT_THRESHOLD : ℚ := 0.65
def TOP_THRESHOLD : ℚ := 0.45
def BOTTOM_THRESHOLD : ℚ := 0.687
def BLINKING_THRESHOLD : ℚ := 4.68
def WINKING_RIGHT_THRESHOLD : ℚ := 4.5
def WINKING_LEFT_THRESHOLD : ℚ := 4.2
def WINKING_EYE_DIFF : ℚ := 0.08

/-! Python evaluation primitives. -/

/-- Attribute access on a possibly-`None` object: `None.attr` raises
`AttributeError`. -/
def pyAttr {α : Type} : Option α → Except PyError α
  | some a => .ok a
  | none => .error .attributeError

/-- Python `/` on rationals: raises `ZeroDivisionError` on a zero divisor. -/
def pyDiv (a b : ℚ) : Except PyError ℚ :=
  if b = 0 then .error .zeroDivisionError else .ok (a / b)

/-- Using a possibly-`None` value as a number (comparison or subtraction):
`None` raises `TypeError`. -/
def pyNum : Option ℚ → Except PyError ℚ
  | some q => .ok q
  | none => .error .typeError

/-- Python `list[i]`: raises `IndexError` out of range. -/
def pyIndex {α : Type} (l : List α) (i : ℕ) : Except PyError α :=
  match l[i]? with
  | some a => .ok a
  | none => .error .indexError

/-- `True` exactly on a successfully returned result (no exception raised). -/
def returns_ok {α : Type} : Except PyError α → Bool
  | .ok _ => true
  | .error _ => false

variable {Frame : Type}

/-- `self.eye_left` followed by any attribute read (raises on `None`). -/
def eyeLeftAttr (g : GazeTracking Frame) : Except PyError Eye :=
  pyAttr g.eye_left

/-- `self.eye_right` followed by any attribute read (raises on `None`). -/
def eyeRightAttr (g : GazeTracking Frame) : Except PyError Eye :=
  pyAttr g.eye_right

/-- `eye.pupil` followed by a coordinate read (raises on `None`). -/
def pupilAttr (e : Eye) : Except PyError Pupil :=
  pyAttr e.pupil

/-- `pupils_located` (lines 46-56): tries to read
`int(eye_left.pupil.x)`, `int(eye_left.pupil.y)`, `int(eye_right.pupil.x)`,
`int(eye_right.pupil.y)` and catches every exception, returning `False`. -/
def pupils_located (g : GazeTracking Frame) : Bool :=
  match (do
    let el ← eyeLeftAttr g
    let pl ← pupilAttr el
    let er ← eyeRightAttr g
    let pr ← pupilAttr er
    pure (pl.x, pl.y, pr.x, pr.y) : Except PyError (ℤ × ℤ × ℤ × ℤ)) with
  | .ok _ => true
  | .error _ => false

/-- `pupil_left_coords` (lines 81-86). -/
def pupil_left_coords (g : GazeTracking Frame) : Except PyError (Option (ℤ × ℤ)) :=
  if pupils_located g then do
    let el ← eyeLeftAttr g
    let pl ← pupilAttr el
    pure (some (el.origin.1 + pl.x, el.origin.2 + pl.y))
  else .ok none

/-- `pupil_right_coords` (lines 88-93). -/
def pupil_right_coords (g : GazeTracking Frame) : Except PyError (Option (ℤ × ℤ)) :=
  if pupils_located g then do
    let er ← eyeRightAttr g
    let pr ← pupilAttr er
    pure (some (er.origin.1 + pr.x, er.origin.2 + pr.y))
  else .ok none

/-- `horizontal_ratio` (lines 95-103):
`eye.pupil.x / (eye.center[0] * 2 - 10)` per eye, averaged. -/
def horizontal_ratio (g : GazeTracking Frame) : Except PyError (Option ℚ) :=
  if pupils_located g then do
    let el ← eyeLeftAttr g
    let pl ← pupilAttr el
    let pupil_left ← pyDiv (pl.x : ℚ) ((el.center.1 : ℚ) * 2 - 10)
    let er ← eyeRightAttr g
    let pr ← pupilAttr er
    let pupil_right ← pyDiv (pr.x : ℚ) ((er.center.1 : ℚ) * 2 - 10)
    pure (some ((pupil_left + pupil_right) / 2))
  else .ok none

/-- `vertical_ratio` (lines 105-113): same formula on the y-axis. -/
def vertical_ratio (g : GazeTracking Frame) : Except PyError (Option ℚ) :=
  if pupils_located g then do
    let el ← eyeLeftAttr g
    let pl ← pupilAttr el
    let pupil_left ← pyDiv (pl.y : ℚ) ((el.center.2 : ℚ) * 2 - 10)
    let er ← eyeRightAttr g
    let pr ← pupilAttr er
    let pupil_right ← pyDiv (pr.y : ℚ) ((er.center.2 : ℚ) * 2 - 10)
    pure (some ((pupil_left + pupil_right) / 2))
  else .ok none

/-- `get_bl` (lines 134-136): returns `self.eye_right.blinking`
(the left/right naming swap is deliberate in the source). -/
def get_bl (g : GazeTracking Frame) : Except PyError (Option ℚ) :=
  if pupils_located g then do
    let er ← eyeRightAttr g
    pure (some er.blinking)
  else .ok none

/-- `get_br` (lines 138-140): returns `self.eye_left.blinking`. -/
def get_br (g : GazeTracking Frame) : Except PyError (Option ℚ) :=
  if pupils_located g then do
    let el ← eyeLeftAttr g
    pure (some el.blinking)
  else .ok none

/-- `is_right` (lines 145-148): `horizontal_ratio() <= RIGHT_THRESHOLD`. -/
def is_right (g : GazeTracking Frame) : Except PyError (Option Bool) :=
  if pupils_located g then do
    let r ← horizontal_ratio g
    let r ← pyNum r
    pure (some (decide (r ≤ RIGHT_THRESHOLD)))
  else .ok none

/-- `is_left` (lines 150-153): `horizontal_ratio() >= LEFT_THRESHOLD`. -/
def is_left (g : GazeTracking Frame) : Except PyError (Option Bool) :=
  if pupils_located g then do
    let r ← horizontal_ratio g
    let r ← pyNum r
    pure (some (decide (r ≥ LEFT_THRESHOLD)))
  else .ok none

/-- `is_up` (lines 175-177): `vertical_ratio() <= TOP_THRESHOLD`. -/
def is_up (g : GazeTracking Frame) : Except PyError (Option Bool) :=
  if pupils_located g then do
    let v ← vertical_ratio g
    let v ← pyNum v
    pure (some (decide (v ≤ TOP_THRESHOLD)))
  else .ok none

/-- `is_bottom` (lines 179-181): `vertical_ratio() >= BOTTOM_THRESHOLD`. -/
def is_bottom (g : GazeTracking Frame) : Except PyError (Option Bool) :=
  if pupils_located g then do
    let v ← vertical_ratio g
    let v ← pyNum v
    pure (some (decide (v ≥ BOTTOM_THRESHOLD)))
  else .ok none

/-- `is_blinking` (lines 160-163):
`get_bl() > BLINKING_THRESHOLD and get_br() > BLINKING_THRESHOLD`. -/
def is_blinking (g : GazeTracking Frame) : Except PyError (Option Bool) :=
  if pupils_located g then do
    let bl ← get_bl g
    let bl ← pyNum bl
    let br ← get_br g
    let br ← pyNum br
    pure (some (decide (bl > BLINKING_THRESHOLD) && decide (br > BLINKING_THRESHOLD)))
  else .ok none

/-- `is_winking_right` (lines 167-169): `get_br() > WINKING_RIGHT_THRESHOLD
and get_br() - get_bl() >= WINKING_EYE_DIFF * WINKING_RIGHT_THRESHOLD`. -/
def is_winking_right (g : GazeTracking Frame) : Except PyError (Option Bool) :=
  if pupils_located g then do
    let br1 ← get_br g
    let br1 ← pyNum br1
    let br2 ← get_br g
    let br2 ← pyNum br2
    let bl ← get_bl g
    let bl ← pyNum bl
    pure (some (decide (br1 > WINKING_RIGHT_THRESHOLD) &&
      decide (br2 - bl ≥ WINKING_EYE_DIFF * WINKING_RIGHT_THRESHOLD)))
  else .ok none

/-- `is_winking_left` (lines 171-173): `get_bl() > WINKING_LEFT_THRESHOLD
and get_bl() - get_br() >= WINKING_EYE_DIFF * WINKING_LEFT_THRESHOLD`. -/
def is_winking_left (g : GazeTracking Frame) : Except PyError (Option Bool) :=
  if pupils_located g then do
    let bl1 ← get_bl g
    let bl1 ← pyNum bl1
    let bl2 ← get_bl g
    let bl2 ← pyNum bl2
    let br ← get_br g
    let br ← pyNum br
    pure (some (decide (bl1 > WINKING_LEFT_THRESHOLD) &&
      decide (bl2 - br ≥ WINKING_EYE_DIFF * WINKING_LEFT_THRESHOLD)))
  else .ok none

/-- `true_gaze_blinking` (lines 183-203): `-1` when pupils are not located,
else the first match of blink (3), right wink (2), left wink (1), open (0). -/
def true_gaze_blinking (g : GazeTracking Frame) : Except PyError ℤ :=
  if !(pupils_located g) then .ok (-1)
  else do
    let b ← is_blinking g
    if b = some true then pure 3
    else do
      let wr ← is_winking_right g
      if wr = some true then pure 2
      else do
        let wl ← is_winking_left g
        if wl = some true then pure 1
        else pure 0

/-- `true_gaze_direction` (lines 205-232): `-1` when pupils are not located,
else `h_offset + v_offset` with `is_left` / `is_right` / else, and
`is_up` / `is_bottom` / else. -/
def true_gaze_direction (g : GazeTracking Frame) : Except PyError ℤ :=
  if !(pupils_located g) then .ok (-1)
  else do
    let l ← is_left g
    let h_offset : ℤ ←
      if l = some true then pure 0
      else do
        let r ← is_right g
        if r = some true then pure 2 else pure 1
    let u ← is_up g
    let v_offset : ℤ ←
      if u = some true then pure 0
      else do
        let b ← is_bottom g
        if b = some true then pure 6 else pure 3
    pure (h_offset + v_offset)

/-! The external frame-analysis collaborators, as parameters: a grayscale
conversion, a face detector returning a (possibly empty) list, a landmark
predictor, and the `Eye` constructor which may update the shared
`Calibration` state. -/

structure Detectors (Frame Face Landmarks Cal : Type) where
  cvtColor : Frame → Frame
  face_detector : Frame → List Face
  predictor : Frame → Face → Landmarks
  mkEye : Frame → Landmarks → ℕ → Cal → Eye × Cal

variable {Face Landmarks Cal : Type}

/-- `_analyze` (lines 58-70): grayscale, detect faces, take `faces[0]` inside
a `try` block that catches `IndexError` and sets both eyes to `None`; else
build `Eye(frame, landmarks, 0, calibration)` and `Eye(..., 1, ...)`.
Reading `self.frame` as an image when it is `None` raises (uncaught). -/
def analyze (D : Detectors Frame Face Landmarks Cal) (g : GazeTracking Frame)
    (cal : Cal) : Except PyError (GazeTracking Frame × Cal) := do
  let f0 ← match g.frame with
    | some f => Except.ok f
    | none => Except.error .typeError
  let frame := D.cvtColor f0
  let faces := D.face_detector frame
  match pyIndex faces 0 with
  | .ok face =>
      let landmarks := D.predictor frame face
      let (el, cal1) := D.mkEye frame landmarks 0 cal
      let (er, cal2) := D.mkEye frame landmarks 1 cal1
      pure ({ g with eye_left := some el, eye_right := some er }, cal2)
  | .error _ =>
      pure ({ g with eye_left := none, eye_right := none }, cal)

/-- `refresh` (lines 72-79): store the frame, then `_analyze`. -/
def refresh (D : Detectors Frame Face Landmarks Cal) (g : GazeTracking Frame)
    (cal : Cal) (frame : Frame) : Except PyError (GazeTracking Frame × Cal) :=
  analyze D { g with frame := some frame } cal

/-- Horizontal grid offset exactly as `true_gaze_direction` computes it:
`is_left` is checked before `is_right`. -/
def h_offset (r : ℚ) : ℤ :=
  if r ≥ LEFT_THRESHOLD then 0 else if r ≤ RIGHT_THRESHOLD then 2 else 1

/-- Vertical grid offset exactly as `true_gaze_direction` computes it:
`is_up` is checked before `is_bottom`. -/
def v_offset (v : ℚ) : ℤ :=
  if v ≤ TOP_THRESHOLD then 0 else if v ≥ BOTTOM_THRESHOLD then 6 else 3

/-- A concrete eye: origin `(0,0)`, center `(10,10)` (so both ratio
denominators are `10`), pupil at `(px, py)`, closure ratio `b`. -/
def mkEyeState (px py : ℤ) (b : ℚ) : Eye :=
  ⟨(0, 0), (10, 10), some ⟨px, py⟩, b⟩

/-- A concrete located state over a trivial frame type: both eyes at
`mkEyeState`, with closure ratios `bLeft` (eye_left) and `bRight` (eye_right).
Its gaze ratios are `px / 10` and `py / 10`. -/
def mkState (px py : ℤ) (bLeft bRight : ℚ) : GazeTracking Unit :=
  ⟨none, some (mkEyeState px py bLeft), some (mkEyeState px py bRight)⟩

/-- A located state whose left eye has `center.x = 5`, making the
`horizontal_ratio` denominator `center.x * 2 - 10` equal to zero. -/
def zeroDenomState : GazeTracking Unit :=
  ⟨none, some ⟨(0, 0), (5, 10), some ⟨1, 1⟩, 0⟩, some (mkEyeState 1 1 0)⟩

/-- The state after construction / after a frame with no detectable face. -/
def emptyState : GazeTracking Unit := ⟨none, none, none⟩

/-- Trivial external detectors whose face detector finds no face. -/
def noFaceDetectors : Detectors Unit Unit Unit Unit where
  cvtColor := id
  face_detector := fun _ => []
  predictor := fun _ _ => ()
  mkEye := fun _ _ _ c => (⟨(0, 0), (0, 0), none, 0⟩, c)

/-! Reduction lemmas for the embedded `Except` monad. -/

@[simp] theorem ok_bind {α β : Type} (a : α) (f : α → Except PyError β) :
    (Except.ok a : Except PyError α) >>= f = f a := rfl

@[simp] theorem error_bind {α β : Type} (e : PyError)
    (f : α → Except PyError β) :
    (Except.error e : Except PyError α) >>= f = .error e := rfl

@[simp] theorem pure_eq_ok {α : Type} (a : α) :
    (pure a : Except PyError α) = .ok a := rfl

/-! Characterization lemmas for states whose pupils are located. -/

theorem pupils_located_of {g : GazeTracking Frame} {el pl er pr}
    (hl : g.eye_left = some el) (hpl : el.pupil = some pl)
    (hr : g.eye_right = some er) (hpr : er.pupil = some pr) :
    pupils_located g = true := by
  simp [pupils_located, eyeLeftAttr, eyeRightAttr, pupilAttr, pyAttr,
    hl, hpl, hr, hpr]

theorem located_elim {g : GazeTracking Frame} (h : pupils_located g = true) :
    ∃ el pl er pr, g.eye_left = some el ∧ el.pupil = some pl ∧
      g.eye_right = some er ∧ er.pupil = some pr := by
  rcases hl : g.eye_left with _ | el
  · rw [pupils_located, eyeLeftAttr, hl] at h
    simp [pyAttr] at h
  rcases hpl : el.pupil with _ | pl
  · rw [pupils_located, eyeLeftAttr, hl] at h
    simp [pyAttr, pupilAttr, hpl] at h
  rcases hr : g.eye_right with _ | er
  · rw [pupils_located, eyeLeftAttr, eyeRightAttr, hl, hr] at h
    simp [pyAttr, pupilAttr, hpl] at h
  rcases hpr : er.pupil with _ | pr
  · rw [pupils_located, eyeLeftAttr, eyeRightAttr, hl, hr] at h
    simp [pyAttr, pupilAttr, hpl, hpr] at h
  exact ⟨el, pl, er, pr, rfl, hpl, rfl, hpr⟩

theorem get_bl_located {g : GazeTracking Frame} {el pl er pr}
    (hl : g.eye_left = some el) (hpl : el.pupil = some pl)
    (hr : g.eye_right = some er) (hpr : er.pupil = some pr) :
    get_bl g = .ok (some er.blinking) := by
  simp [get_bl, pupils_located_of hl hpl hr hpr, eyeRightAttr, pyAttr, hr]

theorem get_br_located {g : GazeTracking Frame} {el pl er pr}
    (hl : g.eye_left = some el) (hpl : el.pupil = some pl)
    (hr : g.eye_right = some er) (hpr : er.pupil = some pr) :
    get_br g = .ok (some el.blinking) := by
  simp [get_br, pupils_located_of hl hpl hr hpr, eyeLeftAttr, pyAttr, hl]

theorem is_blinking_located {g : GazeTracking Frame} {el pl er pr}
    (hl : g.eye_left = some el) (hpl : el.pupil = some pl)
    (hr : g.eye_right = some er) (hpr : er.pupil = some pr) :
    is_blinking g = .ok (some (decide (er.blinking > BLINKING_THRESHOLD) &&
      decide (el.blinking > BLINKING_THRESHOLD))) := by
  simp [is_blinking, pupils_located_of hl hpl hr hpr,
    get_bl_located hl hpl hr hpr, get_br_located hl hpl hr hpr, pyNum]

theorem is_winking_right_located {g : GazeTracking Frame} {el pl er pr}
    (hl : g.eye_left = some el) (hpl : el.pupil = some pl)
    (hr : g.eye_right = some er) (hpr : er.pupil = some pr) :
    is_winking_right g = .ok (some
      (decide (el.blinking > WINKING_RIGHT_THRESHOLD) &&
       decide (el.blinking - er.blinking ≥
         WINKING_EYE_DIFF * WINKING_RIGHT_THRESHOLD))) := by
  simp [is_winking_right, pupils_located_of hl hpl hr hpr,
    get_bl_located hl hpl hr hpr, get_br_located hl hpl hr hpr, pyNum]

theorem is_winking_left_located {g : GazeTracking Frame} {el pl er pr}
    (hl : g.eye_left = some el) (hpl : el.pupil = some pl)
    (hr : g.eye_right = some er) (hpr : er.pupil = some pr) :
    is_winking_left g = .ok (some
      (decide (er.blinking > WINKING_LEFT_THRESHOLD) &&
       decide (er.blinking - el.blinking ≥
         WINKING_EYE_DIFF * WINKING_LEFT_THRESHOLD))) := by
  simp [is_winking_left, pupils_located_of hl hpl hr hpr,
    get_bl_located hl hpl hr hpr, get_br_located hl hpl hr hpr, pyNum]

theorem horizontal_ratio_located {g : GazeTracking Frame} {el pl er pr}
    (hl : g.eye_left = some el) (hpl : el.pupil = some pl)
    (hr : g.eye_right = some er) (hpr : er.pupil = some pr)
    (d1 : (el.center.1 : ℚ) * 2 - 10 ≠ 0) (d2 : (er.center.1 : ℚ) * 2 - 10 ≠ 0) :
    horizontal_ratio g = .ok (some
      (((pl.x : ℚ) / ((el.center.1 : ℚ) * 2 - 10) +
        (pr.x : ℚ) / ((er.center.1 : ℚ) * 2 - 10)) / 2)) := by
  simp [horizontal_ratio, pupils_located_of hl hpl hr hpr, eyeLeftAttr,
    eyeRightAttr, pupilAttr, pyAttr, hl, hpl, hr, hpr, pyDiv, d1, d2]

theorem vertical_ratio_located {g : GazeTracking Frame} {el pl er pr}
    (hl : g.eye_left = some el) (hpl : el.pupil = some pl)
    (hr : g.eye_right = some er) (hpr : er.pupil = some pr)
    (d1 : (el.center.2 : ℚ) * 2 - 10 ≠ 0) (d2 : (er.center.2 : ℚ) * 2 - 10 ≠ 0) :
    vertical_ratio g = .ok (some
      (((pl.y : ℚ) / ((el.center.2 : ℚ) * 2 - 10) +
        (pr.y : ℚ) / ((er.center.2 : ℚ) * 2 - 10)) / 2)) := by
  simp [vertical_ratio, pupils_located_of hl hpl hr hpr, eyeLeftAttr,
    eyeRightAttr, pupilAttr, pyAttr, hl, hpl, hr, hpr, pyDiv, d1, d2]

theorem is_left_of {g : GazeTracking Frame} {r : ℚ}
    (hp : pupils_located g = true)
    (hhr : horizontal_ratio g = .ok (some r)) :
    is_left g = .ok (some (decide (r ≥ LEFT_THRESHOLD))) := by
  simp [is_left, hp, hhr, pyNum]

theorem is_right_of {g : GazeTracking Frame} {r : ℚ}
    (hp : pupils_located g = true)
    (hhr : horizontal_ratio g = .ok (some r)) :
    is_right g = .ok (some (decide (r ≤ RIGHT_THRESHOLD))) := by
  simp [is_right, hp, hhr, pyNum]

theorem is_up_of {g : GazeTracking Frame} {v : ℚ}
    (hp : pupils_located g = true)
    (hvr : vertical_ratio g = .ok (some v)) :
    is_up g = .ok (some (decide (v ≤ TOP_THRESHOLD))) := by
  simp [is_up, hp, hvr, pyNum]

theorem is_bottom_of {g : GazeTracking Frame} {v : ℚ}
    (hp : pupils_located g = true)
    (hvr : vertical_ratio g = .ok (some v)) :
    is_bottom g = .ok (some (decide (v ≥ BOTTOM_THRESHOLD))) := by
  simp [is_bottom, hp, hvr, pyNum]

theorem true_gaze_direction_of {g : GazeTracking Frame} {r v : ℚ}
    (hp : pupils_located g = true)
    (hhr : horizontal_ratio g = .ok (some r))
    (hvr : vertical_ratio g = .ok (some v)) :
    true_gaze_direction g = .ok (h_offset r + v_offset v) := by
  simp only [true_gaze_direction, hp, Bool.not_true, Bool.false_eq_true,
    if_false, is_left_of hp hhr, is_right_of hp hhr, is_up_of hp hvr,
    is_bottom_of hp hvr, ok_bind, pure_eq_ok, Option.some.injEq,
    decide_eq_true_eq, h_offset, v_offset]
  split_ifs <;> simp

theorem true_gaze_blinking_located {g : GazeTracking Frame} {el pl er pr}
    (hl : g.eye_left = some el) (hpl : el.pupil = some pl)
    (hr : g.eye_right = some er) (hpr : er.pupil = some pr) :
    true_gaze_blinking g = .ok
      (if er.blinking > BLINKING_THRESHOLD ∧ el.blinking > BLINKING_THRESHOLD
        then 3
      else if el.blinking > WINKING_RIGHT_THRESHOLD ∧
          el.blinking - er.blinking ≥
            WINKING_EYE_DIFF * WINKING_RIGHT_THRESHOLD then 2
      else if er.blinking > WINKING_LEFT_THRESHOLD ∧
          er.blinking - el.blinking ≥
            WINKING_EYE_DIFF * WINKING_LEFT_THRESHOLD then 1
      else 0) := by
  simp only [true_gaze_blinking, pupils_located_of hl hpl hr hpr, Bool.not_true,
    Bool.false_eq_true, if_false, is_blinking_located hl hpl hr hpr,
    is_winking_right_located hl hpl hr hpr,
    is_winking_left_located hl hpl hr hpr, ok_bind, pure_eq_ok,
    Option.some.injEq, Bool.and_eq_true, decide_eq_true_eq]
  split_ifs <;> simp

theorem pupil_left_coords_located {g : GazeTracking Frame} {el pl er pr}
    (hl : g.eye_left = some el) (hpl : el.pupil = some pl)
    (hr : g.eye_right = some er) (hpr : er.pupil = some pr) :
    pupil_left_coords g =
      .ok (some (el.origin.1 + pl.x, el.origin.2 + pl.y)) := by
  simp [pupil_left_coords, pupils_located_of hl hpl hr hpr, eyeLeftAttr,
    pupilAttr, pyAttr, hl, hpl]

theorem pupil_right_coords_located {g : GazeTracking Frame} {el pl er pr}
    (hl : g.eye_left = some el) (hpl : el.pupil = some pl)
    (hr : g.eye_right = some er) (hpr : er.pupil = some pr) :
    pupil_right_coords g =
      .ok (some (er.origin.1 + pr.x, er.origin.2 + pr.y)) := by
  simp [pupil_right_coords, pupils_located_of hl hpl hr hpr, eyeRightAttr,
    pupilAttr, pyAttr, hr, hpr]

/-- `horizontal_ratio` on a concrete `mkState`: both denominators are 10,
so the averaged ratio is `px / 10`. -/
theorem horizontal_ratio_mkState (px py : ℤ) (a b : ℚ) :
    horizontal_ratio (mkState px py a b) = .ok (some ((px : ℚ) / 10)) := by
  rw [horizontal_ratio_located rfl rfl rfl rfl (by norm_num [mkEyeState])
    (by norm_num [mkEyeState])]
  norm_num [mkEyeState]

/-- `vertical_ratio` on a concrete `mkState` is `py / 10`. -/
theorem vertical_ratio_mkState (px py : ℤ) (a b : ℚ) :
    vertical_ratio (mkState px py a b) = .ok (some ((py : ℚ) / 10)) := by
  rw [vertical_ratio_located rfl rfl rfl rfl (by norm_num [mkEyeState])
    (by norm_num [mkEyeState])]
  norm_num [mkEyeState]

/-- `true_gaze_blinking` on a concrete `mkState`: `get_bl()` is the
eye_right ratio `b`, `get_br()` the eye_left ratio `a`. -/
theorem true_gaze_blinking_mkState (px py : ℤ) (a b : ℚ) :
    true_gaze_blinking (mkState px py a b) = .ok
      (if b > BLINKING_THRESHOLD ∧ a > BLINKING_THRESHOLD then 3
      else if a > WINKING_RIGHT_THRESHOLD ∧
          a - b ≥ WINKING_EYE_DIFF * WINKING_RIGHT_THRESHOLD then 2
      else if b > WINKING_LEFT_THRESHOLD ∧
          b - a ≥ WINKING_EYE_DIFF * WINKING_LEFT_THRESHOLD then 1
      else 0) :=
  true_gaze_blinking_located rfl rfl rfl rfl

/-! Claim theorems. -/

/-- C1: for every state with located pupils, whenever both closure ratios
exceed `BLINKING_THRESHOLD` (`get_bl() > 4.68` and `get_br() > 4.68`),
`true_gaze_blinking()` returns 3 — even if the single-eye wink conditions
would also individually hold. -/
theorem C1_full_blink_wins {Frame : Type} (g : GazeTracking Frame)
    (hp : pupils_located g = true) (bl br : ℚ)
    (hbl : get_bl g = .ok (some bl)) (hbr : get_br g = .ok (some br))
    (h1 : bl > BLINKING_THRESHOLD) (h2 : br > BLINKING_THRESHOLD) :
    true_gaze_blinking g = .ok 3 := by
  obtain ⟨el, pl, er, pr, hl, hpl, hr, hpr⟩ := located_elim hp
  have ebl : er.blinking = bl := by
    simpa using (get_bl_located hl hpl hr hpr).symm.trans hbl
  have ebr : el.blinking = br := by
    simpa using (get_br_located hl hpl hr hpr).symm.trans hbr
  rw [true_gaze_blinking_located hl hpl hr hpr, ebl, ebr, if_pos ⟨h1, h2⟩]

/-- C1 witness: closure ratios 5.5 (`get_bl`) and 6.5 (`get_br`) exceed
4.68, and the right-wink condition also holds (6.5 > 4.5 and
1.0 ≥ 0.36); the result is still 3. -/
theorem C1_full_blink_wins_witness :
    true_gaze_blinking (mkState 5 5 6.5 5.5) = .ok 3 :=
  C1_full_blink_wins (mkState 5 5 6.5 5.5) rfl 5.5 6.5 rfl rfl
    (by norm_num [BLINKING_THRESHOLD]) (by norm_num [BLINKING_THRESHOLD])

/-- C2 counterexample: with `EyeModel(LEFT).blinking = 4.0` and
`EyeModel(RIGHT).blinking = 4.6`, the claim's reading
(`closure_right = EyeModel(RIGHT).blinking = 4.6`) satisfies the right-wink
condition while the full-blink condition fails, so the claim predicts 2;
the code returns 1 (left wink), because `is_winking_right` actually reads
`get_br() = EyeModel(LEFT).blinking`. -/
theorem C2_counterexample :
    pupils_located (mkState 5 5 4.0 4.6) = true
    ∧ (mkState 5 5 4.0 4.6).eye_right = some (mkEyeState 5 5 4.6)
    ∧ (mkState 5 5 4.0 4.6).eye_left = some (mkEyeState 5 5 4.0)
    ∧ ¬((mkEyeState 5 5 4.6).blinking > BLINKING_THRESHOLD
        ∧ (mkEyeState 5 5 4.0).blinking > BLINKING_THRESHOLD)
    ∧ ((mkEyeState 5 5 4.6).blinking > WINKING_RIGHT_THRESHOLD
        ∧ (mkEyeState 5 5 4.6).blinking - (mkEyeState 5 5 4.0).blinking
            ≥ WINKING_EYE_DIFF * WINKING_RIGHT_THRESHOLD)
    ∧ true_gaze_blinking (mkState 5 5 4.0 4.6) = .ok 1 := by
  refine ⟨rfl, rfl, rfl, ?_, ?_, ?_⟩
  · norm_num [mkEyeState, BLINKING_THRESHOLD]
  · norm_num [mkEyeState, WINKING_RIGHT_THRESHOLD, WINKING_EYE_DIFF]
  · rw [true_gaze_blinking_mkState]
    norm_num [BLINKING_THRESHOLD, WINKING_RIGHT_THRESHOLD,
      WINKING_LEFT_THRESHOLD, WINKING_EYE_DIFF]

/-- C2 (amended): for every located state where the full-blink condition
fails, `true_gaze_blinking()` returns 2 exactly when
`closure_right > WINKING_RIGHT_THRESHOLD` and
`closure_right - closure_left ≥ WINKING_EYE_DIFF * WINKING_RIGHT_THRESHOLD`,
where `closure_right = get_br() = EyeModel(LEFT).blinking` and
`closure_left = get_bl() = EyeModel(RIGHT).blinking` (the source's
deliberate subject-perspective swap). -/
theorem C2_right_wink_iff {Frame : Type} (g : GazeTracking Frame)
    (hp : pupils_located g = true) (bl br : ℚ)
    (hbl : get_bl g = .ok (some bl)) (hbr : get_br g = .ok (some br))
    (hnb : ¬(bl > BLINKING_THRESHOLD ∧ br > BLINKING_THRESHOLD)) :
    true_gaze_blinking g = .ok 2 ↔
      (br > WINKING_RIGHT_THRESHOLD ∧
        br - bl ≥ WINKING_EYE_DIFF * WINKING_RIGHT_THRESHOLD) := by
  obtain ⟨el, pl, er, pr, hl, hpl, hr, hpr⟩ := located_elim hp
  have ebl : er.blinking = bl := by
    simpa using (get_bl_located hl hpl hr hpr).symm.trans hbl
  have ebr : el.blinking = br := by
    simpa using (get_br_located hl hpl hr hpr).symm.trans hbr
  rw [true_gaze_blinking_located hl hpl hr hpr, ebl, ebr, if_neg hnb]
  by_cases hw : br > WINKING_RIGHT_THRESHOLD ∧
      br - bl ≥ WINKING_EYE_DIFF * WINKING_RIGHT_THRESHOLD
  · simp [hw]
  · rw [if_neg hw]
    simp only [hw, iff_false]
    split_ifs <;> simp

/-- C2 witness: `EyeModel(LEFT).blinking = 4.6`,
`EyeModel(RIGHT).blinking = 4.0`: full blink fails, 4.6 > 4.5 and
0.6 ≥ 0.36, so the code reports a right wink (2). -/
theorem C2_right_wink_iff_witness :
    true_gaze_blinking (mkState 5 5 4.6 4.0) = .ok 2 :=
  (C2_right_wink_iff (mkState 5 5 4.6 4.0) rfl 4.0 4.6 rfl rfl
    (by norm_num [BLINKING_THRESHOLD])).mpr
    (by norm_num [WINKING_RIGHT_THRESHOLD, WINKING_EYE_DIFF])

/-- C6: for every state where `pupils_located` is false, every
classification query returns its defined sentinel: `true_gaze_direction()`
and `true_gaze_blinking()` return -1, and both ratios and both pupil
coordinate queries return `None`. -/
theorem C6_sentinels {Frame : Type} (g : GazeTracking Frame)
    (hp : pupils_located g = false) :
    true_gaze_direction g = .ok (-1)
    ∧ true_gaze_blinking g = .ok (-1)
    ∧ horizontal_ratio g = .ok none
    ∧ vertical_ratio g = .ok none
    ∧ pupil_left_coords g = .ok none
    ∧ pupil_right_coords g = .ok none := by
  refine ⟨?_, ?_, ?_, ?_, ?_, ?_⟩ <;>
    simp [true_gaze_direction, true_gaze_blinking, horizontal_ratio,
      vertical_ratio, pupil_left_coords, pupil_right_coords, hp]

/-- C6 witness: the freshly constructed state (no frame, no eyes). -/
theorem C6_sentinels_witness :
    true_gaze_direction emptyState = .ok (-1)
    ∧ true_gaze_blinking emptyState = .ok (-1)
    ∧ horizontal_ratio emptyState = .ok none
    ∧ vertical_ratio emptyState = .ok none
    ∧ pupil_left_coords emptyState = .ok none
    ∧ pupil_right_coords emptyState = .ok none :=
  C6_sentinels emptyState rfl

/-- C8: the pupil coordinate queries return
`(origin.x + pupil.x, origin.y + pupil.y)` in frame coordinates when the
pupils are located, `None` otherwise, and in every state the two results
are both defined or both absent. -/
theorem C8_pair_or_nothing {Frame : Type} (g : GazeTracking Frame) :
    (pupils_located g = false →
      pupil_left_coords g = .ok none ∧ pupil_right_coords g = .ok none)
    ∧ (∀ el pl er pr, g.eye_left = some el → el.pupil = some pl →
        g.eye_right = some er → er.pupil = some pr →
        pupil_left_coords g =
          .ok (some (el.origin.1 + pl.x, el.origin.2 + pl.y))
        ∧ pupil_right_coords g =
          .ok (some (er.origin.1 + pr.x, er.origin.2 + pr.y)))
    ∧ ((∃ c, pupil_left_coords g = .ok (some c)) ↔
        (∃ c, pupil_right_coords g = .ok (some c))) := by
  refine ⟨fun hp => ?_, fun el pl er pr hl hpl hr hpr => ?_, ?_⟩
  · exact ⟨by simp [pupil_left_coords, hp], by simp [pupil_right_coords, hp]⟩
  · exact ⟨pupil_left_coords_located hl hpl hr hpr,
      pupil_right_coords_located hl hpl hr hpr⟩
  · by_cases hp : pupils_located g = true
    · obtain ⟨el, pl, er, pr, hl, hpl, hr, hpr⟩ := located_elim hp
      rw [pupil_left_coords_located hl hpl hr hpr,
        pupil_right_coords_located hl hpl hr hpr]
      simp
    · have hp0 : pupils_located g = false := by simpa using hp
      rw [(by simp [pupil_left_coords, hp0] :
            pupil_left_coords g = .ok none),
          (by simp [pupil_right_coords, hp0] :
            pupil_right_coords g = .ok none)]

/-- C8 witness: concrete located state with origins `(0,0)` and pupil at
`(2,3)`: both queries return `(2, 3)`. -/
theorem C8_pair_or_nothing_witness :
    pupil_left_coords (mkState 2 3 0 0) = .ok (some (0 + 2, 0 + 3))
    ∧ pupil_right_coords (mkState 2 3 0 0) = .ok (some (0 + 2, 0 + 3)) :=
  (C8_pair_or_nothing (mkState 2 3 0 0)).2.1 (mkEyeState 2 3 0) ⟨2, 3⟩
    (mkEyeState 2 3 0) ⟨2, 3⟩ rfl rfl rfl rfl

/-- C4 counterexample: a located state with integer pupil coordinate 20 and
eye centers `(10,10)` yields `horizontal_ratio() = 2`, outside `[0,1]` —
so the ratios are not in `[0,1]` for arbitrary integer coordinates. -/
theorem C4_counterexample :
    pupils_located (mkState 20 2 0 0) = true
    ∧ horizontal_ratio (mkState 20 2 0 0) = .ok (some 2)
    ∧ ¬((0 : ℚ) ≤ 2 ∧ (2 : ℚ) ≤ 1) := by
  refine ⟨rfl, ?_, by norm_num⟩
  rw [horizontal_ratio_mkState]; norm_num

/-- C4 (amended): for every located state, `horizontal_ratio()` and
`vertical_ratio()` return the average over both eyes of
`pupil / (center * 2 - 10)` on the respective axis; the result lies in
`[0,1]` whenever each eye's pupil coordinate lies between 0 and its
positive denominator `center * 2 - 10` — but not for arbitrary integer
pupil coordinates and centers. -/
theorem C4_ratio_bounds {Frame : Type} (g : GazeTracking Frame)
    (el pl er pr : _) (hl : g.eye_left = some el) (hpl : el.pupil = some pl)
    (hr : g.eye_right = some er) (hpr : er.pupil = some pr)
    (hx1 : 0 < el.center.1 * 2 - 10) (hx2 : 0 ≤ pl.x)
    (hx3 : pl.x ≤ el.center.1 * 2 - 10)
    (hx4 : 0 < er.center.1 * 2 - 10) (hx5 : 0 ≤ pr.x)
    (hx6 : pr.x ≤ er.center.1 * 2 - 10)
    (hy1 : 0 < el.center.2 * 2 - 10) (hy2 : 0 ≤ pl.y)
    (hy3 : pl.y ≤ el.center.2 * 2 - 10)
    (hy4 : 0 < er.center.2 * 2 - 10) (hy5 : 0 ≤ pr.y)
    (hy6 : pr.y ≤ er.center.2 * 2 - 10) :
    horizontal_ratio g = .ok (some
      (((pl.x : ℚ) / ((el.center.1 : ℚ) * 2 - 10)
        + (pr.x : ℚ) / ((er.center.1 : ℚ) * 2 - 10)) / 2))
    ∧ (0 : ℚ) ≤ ((pl.x : ℚ) / ((el.center.1 : ℚ) * 2 - 10)
        + (pr.x : ℚ) / ((er.center.1 : ℚ) * 2 - 10)) / 2
    ∧ ((pl.x : ℚ) / ((el.center.1 : ℚ) * 2 - 10)
        + (pr.x : ℚ) / ((er.center.1 : ℚ) * 2 - 10)) / 2 ≤ 1
    ∧ vertical_ratio g = .ok (some
      (((pl.y : ℚ) / ((el.center.2 : ℚ) * 2 - 10)
        + (pr.y : ℚ) / ((er.center.2 : ℚ) * 2 - 10)) / 2))
    ∧ (0 : ℚ) ≤ ((pl.y : ℚ) / ((el.center.2 : ℚ) * 2 - 10)
        + (pr.y : ℚ) / ((er.center.2 : ℚ) * 2 - 10)) / 2
    ∧ ((pl.y : ℚ) / ((el.center.2 : ℚ) * 2 - 10)
        + (pr.y : ℚ) / ((er.center.2 : ℚ) * 2 - 10)) / 2 ≤ 1 := by
  have c1 : (0 : ℚ) < (el.center.1 : ℚ) * 2 - 10 := by exact_mod_cast hx1
  have c2 : (0 : ℚ) < (er.center.1 : ℚ) * 2 - 10 := by exact_mod_cast hx4
  have c3 : (0 : ℚ) < (el.center.2 : ℚ) * 2 - 10 := by exact_mod_cast hy1
  have c4 : (0 : ℚ) < (er.center.2 : ℚ) * 2 - 10 := by exact_mod_cast hy4
  have q1a : (0 : ℚ) ≤ (pl.x : ℚ) / ((el.center.1 : ℚ) * 2 - 10) :=
    div_nonneg (by exact_mod_cast hx2) c1.le
  have q1b : (pl.x : ℚ) / ((el.center.1 : ℚ) * 2 - 10) ≤ 1 :=
    (div_le_one c1).mpr (by exact_mod_cast hx3)
  have q2a : (0 : ℚ) ≤ (pr.x : ℚ) / ((er.center.1 : ℚ) * 2 - 10) :=
    div_nonneg (by exact_mod_cast hx5) c2.le
  have q2b : (pr.x : ℚ) / ((er.center.1 : ℚ) * 2 - 10) ≤ 1 :=
    (div_le_one c2).mpr (by exact_mod_cast hx6)
  have q3a : (0 : ℚ) ≤ (pl.y : ℚ) / ((el.center.2 : ℚ) * 2 - 10) :=
    div_nonneg (by exact_mod_cast hy2) c3.le
  have q3b : (pl.y : ℚ) / ((el.center.2 : ℚ) * 2 - 10) ≤ 1 :=
    (div_le_one c3).mpr (by exact_mod_cast hy3)
  have q4a : (0 : ℚ) ≤ (pr.y : ℚ) / ((er.center.2 : ℚ) * 2 - 10) :=
    div_nonneg (by exact_mod_cast hy5) c4.le
  have q4b : (pr.y : ℚ) / ((er.center.2 : ℚ) * 2 - 10) ≤ 1 :=
    (div_le_one c4).mpr (by exact_mod_cast hy6)
  exact ⟨horizontal_ratio_located hl hpl hr hpr c1.ne' c2.ne',
    by linarith, by linarith,
    vertical_ratio_located hl hpl hr hpr c3.ne' c4.ne',
    by linarith, by linarith⟩

/-- C4 witness: pupil `(2,3)`, centers `(10,10)`: the horizontal ratio is
the in-range average `(2/10 + 2/10)/2`. -/
theorem C4_ratio_bounds_witness :
    horizontal_ratio (mkState 2 3 0 0) = .ok (some
      ((((2 : ℤ) : ℚ) / (((10 : ℤ) : ℚ) * 2 - 10)
        + ((2 : ℤ) : ℚ) / (((10 : ℤ) : ℚ) * 2 - 10)) / 2))
    ∧ (0 : ℚ) ≤ (((2 : ℤ) : ℚ) / (((10 : ℤ) : ℚ) * 2 - 10)
        + ((2 : ℤ) : ℚ) / (((10 : ℤ) : ℚ) * 2 - 10)) / 2 :=
  ⟨(C4_ratio_bounds (mkState 2 3 0 0) (mkEyeState 2 3 0) ⟨2, 3⟩
      (mkEyeState 2 3 0) ⟨2, 3⟩ rfl rfl rfl rfl (by decide) (by decide)
      (by decide) (by decide) (by decide) (by decide) (by decide) (by decide)
      (by decide) (by decide) (by decide) (by decide)).1,
   (C4_ratio_bounds (mkState 2 3 0 0) (mkEyeState 2 3 0) ⟨2, 3⟩
      (mkEyeState 2 3 0) ⟨2, 3⟩ rfl rfl rfl rfl (by decide) (by decide)
      (by decide) (by decide) (by decide) (by decide) (by decide) (by decide)
      (by decide) (by decide) (by decide) (by decide)).2.1⟩

/-- C5 counterexample: at a located state whose left eye has
`center.x = 5` (denominator `center.x * 2 - 10 = 0`), `horizontal_ratio()`
raises `ZeroDivisionError`, and so does `true_gaze_direction()` — so not
every query returns a defined result for every possible state. -/
theorem C5_counterexample :
    pupils_located zeroDenomState = true
    ∧ horizontal_ratio zeroDenomState = .error .zeroDivisionError
    ∧ true_gaze_direction zeroDenomState = .error .zeroDivisionError := by
  have hz : horizontal_ratio zeroDenomState = .error .zeroDivisionError := by
    norm_num [horizontal_ratio, zeroDenomState, pupils_located, eyeLeftAttr,
      eyeRightAttr, pupilAttr, pyAttr, mkEyeState, pyDiv]
  have hptrue : pupils_located zeroDenomState = true := rfl
  refine ⟨hptrue, hz, ?_⟩
  simp [true_gaze_direction, is_left, hptrue, hz]

/-- C5 (amended): `pupils_located` is total by type; the pupil coordinate
queries and `true_gaze_blinking()` never fault in any state; and
`horizontal_ratio()`, `vertical_ratio()` and `true_gaze_direction()` never
fault provided every present eye has nonzero ratio denominators
`center * 2 - 10` on both axes (the zero-denominator states are the only
faulting ones). -/
theorem C5_no_fault {Frame : Type} (g : GazeTracking Frame) :
    (returns_ok (pupil_left_coords g) = true
      ∧ returns_ok (pupil_right_coords g) = true
      ∧ returns_ok (true_gaze_blinking g) = true)
    ∧ ((∀ e, g.eye_left = some e →
          ((e.center.1 : ℚ) * 2 - 10 ≠ 0 ∧ (e.center.2 : ℚ) * 2 - 10 ≠ 0)) →
        (∀ e, g.eye_right = some e →
          ((e.center.1 : ℚ) * 2 - 10 ≠ 0 ∧ (e.center.2 : ℚ) * 2 - 10 ≠ 0)) →
        returns_ok (horizontal_ratio g) = true
        ∧ returns_ok (vertical_ratio g) = true
        ∧ returns_ok (true_gaze_direction g) = true) := by
  by_cases hp : pupils_located g = true
  · obtain ⟨el, pl, er, pr, hl, hpl, hr, hpr⟩ := located_elim hp
    refine ⟨⟨?_, ?_, ?_⟩, fun hdl hdr => ?_⟩
    · rw [pupil_left_coords_located hl hpl hr hpr]; rfl
    · rw [pupil_right_coords_located hl hpl hr hpr]; rfl
    · rw [true_gaze_blinking_located hl hpl hr hpr]; rfl
    · obtain ⟨d1, d2⟩ := hdl el hl
      obtain ⟨d3, d4⟩ := hdr er hr
      refine ⟨?_, ?_, ?_⟩
      · rw [horizontal_ratio_located hl hpl hr hpr d1 d3]; rfl
      · rw [vertical_ratio_located hl hpl hr hpr d2 d4]; rfl
      · rw [true_gaze_direction_of hp
          (horizontal_ratio_located hl hpl hr hpr d1 d3)
          (vertical_ratio_located hl hpl hr hpr d2 d4)]
        rfl
  · have hp0 : pupils_located g = false := by simpa using hp
    refine ⟨⟨?_, ?_, ?_⟩, fun hdl hdr => ⟨?_, ?_, ?_⟩⟩ <;>
      simp [pupil_left_coords, pupil_right_coords, true_gaze_blinking,
        horizontal_ratio, vertical_ratio, true_gaze_direction, hp0,
        returns_ok]

/-- C5 witness: the coordinate and blinking queries return without fault
even at the zero-denominator state (`center.x = 5`), and at a state with
centers `(10,10)` all three ratio-based queries return without fault. -/
theorem C5_no_fault_witness :
    (returns_ok (pupil_left_coords zeroDenomState) = true
      ∧ returns_ok (pupil_right_coords zeroDenomState) = true
      ∧ returns_ok (true_gaze_blinking zeroDenomState) = true)
    ∧ (returns_ok (horizontal_ratio (mkState 2 3 0 0)) = true
      ∧ returns_ok (vertical_ratio (mkState 2 3 0 0)) = true
      ∧ returns_ok (true_gaze_direction (mkState 2 3 0 0)) = true) :=
  ⟨(C5_no_fault zeroDenomState).1,
   (C5_no_fault (mkState 2 3 0 0)).2
    (by
      intro e he
      simp only [mkState, Option.some.injEq] at he
      subst he
      constructor <;> norm_num [mkEyeState])
    (by
      intro e he
      simp only [mkState, Option.some.injEq] at he
      subst he
      constructor <;> norm_num [mkEyeState])⟩

/-- C9: whenever the face detector returns an empty sequence for the
(grayscaled) frame, `refresh(frame)` returns normally with both eyes set
to `None` — the `IndexError` from indexing the empty detection result is
caught inside `_analyze` — and the resulting state has `pupils_located`
false. -/
theorem C9_no_face {Frame Face Landmarks Cal : Type}
    (D : Detectors Frame Face Landmarks Cal) (g : GazeTracking Frame)
    (cal : Cal) (frame : Frame)
    (h : D.face_detector (D.cvtColor frame) = []) :
    refresh D g cal frame = .ok (⟨some frame, none, none⟩, cal)
    ∧ pupils_located (⟨some frame, none, none⟩ : GazeTracking Frame)
        = false := by
  constructor
  · simp [refresh, analyze, h, pyIndex]
  · rfl

/-- C9 witness: detectors that find no face; `refresh` on the fresh state
returns normally with both eyes absent. -/
theorem C9_no_face_witness :
    refresh noFaceDetectors emptyState () () =
      .ok (⟨some (), none, none⟩, ())
    ∧ pupils_located (⟨some (), none, none⟩ : GazeTracking Unit) = false :=
  C9_no_face noFaceDetectors emptyState () () rfl

/-- C10: for every located state, `is_winking_right()` and
`is_winking_left()` are never both `True`: the closure difference cannot be
both `≥ 0.08 * 4.5` and, negated, `≥ 0.08 * 4.2`. -/
theorem C10_winks_exclusive {Frame : Type} (g : GazeTracking Frame)
    (hp : pupils_located g = true) :
    ¬(is_winking_right g = .ok (some true) ∧
      is_winking_left g = .ok (some true)) := by
  obtain ⟨el, pl, er, pr, hl, hpl, hr, hpr⟩ := located_elim hp
  rintro ⟨h1, h2⟩
  rw [is_winking_right_located hl hpl hr hpr] at h1
  rw [is_winking_left_located hl hpl hr hpr] at h2
  simp only [Except.ok.injEq, Option.some.injEq, Bool.and_eq_true,
    decide_eq_true_eq] at h1 h2
  have c1 : (0 : ℚ) < WINKING_EYE_DIFF * WINKING_RIGHT_THRESHOLD := by
    norm_num [WINKING_EYE_DIFF, WINKING_RIGHT_THRESHOLD]
  have c2 : (0 : ℚ) < WINKING_EYE_DIFF * WINKING_LEFT_THRESHOLD := by
    norm_num [WINKING_EYE_DIFF, WINKING_LEFT_THRESHOLD]
  linarith [h1.2, h2.2]

/-- C3 counterexample: at a located state with
`horizontal_ratio() = vertical_ratio() = 0.20`, `true_gaze_direction()`
does not return 0 — `0.20 ≤ RIGHT_THRESHOLD` puts the gaze in the `right`
column (`h_offset = 2`), so the code returns 2 (top-right). -/
theorem C3_counterexample :
    pupils_located (mkState 2 2 0 0) = true
    ∧ horizontal_ratio (mkState 2 2 0 0) = .ok (some 0.2)
    ∧ vertical_ratio (mkState 2 2 0 0) = .ok (some 0.2)
    ∧ true_gaze_direction (mkState 2 2 0 0) ≠ .ok 0 := by
  refine ⟨rfl, ?_, ?_, ?_⟩
  · rw [horizontal_ratio_mkState]; norm_num
  · rw [vertical_ratio_mkState]; norm_num
  · rw [true_gaze_direction_of
      (rfl : pupils_located (mkState 2 2 0 0) = true)
      (horizontal_ratio_mkState 2 2 0 0) (vertical_ratio_mkState 2 2 0 0)]
    norm_num [h_offset, v_offset, LEFT_THRESHOLD, RIGHT_THRESHOLD,
      TOP_THRESHOLD, BOTTOM_THRESHOLD]

/-- C3 (amended): with the hardcoded thresholds, for any located state:
ratios `(0.20, 0.20)` give direction 2 (top-right), `(0.50, 0.50)` give 4
(true center), and `(0.80, 0.90)` give 6 (bottom-left) — low horizontal
ratios mean `right` (pixel convention), high ones `left`. -/
theorem C3_example_scenarios {Frame : Type} (g : GazeTracking Frame)
    (hp : pupils_located g = true) :
    (horizontal_ratio g = .ok (some 0.2) → vertical_ratio g = .ok (some 0.2) →
      true_gaze_direction g = .ok 2)
    ∧ (horizontal_ratio g = .ok (some 0.5) → vertical_ratio g = .ok (some 0.5) →
      true_gaze_direction g = .ok 4)
    ∧ (horizontal_ratio g = .ok (some 0.8) → vertical_ratio g = .ok (some 0.9) →
      true_gaze_direction g = .ok 6) := by
  refine ⟨fun h1 h2 => ?_, fun h1 h2 => ?_, fun h1 h2 => ?_⟩ <;>
    rw [true_gaze_direction_of hp h1 h2] <;>
      norm_num [h_offset, v_offset, LEFT_THRESHOLD, RIGHT_THRESHOLD,
        TOP_THRESHOLD, BOTTOM_THRESHOLD]

/-- C3 witness: the three scenarios realized on concrete states (pupil at
`(2,2)`, `(5,5)`, `(8,9)` with eye centers `(10,10)`). -/
theorem C3_example_scenarios_witness :
    true_gaze_direction (mkState 2 2 0 0) = .ok 2
    ∧ true_gaze_direction (mkState 5 5 0 0) = .ok 4
    ∧ true_gaze_direction (mkState 8 9 0 0) = .ok 6 :=
  ⟨(C3_example_scenarios (mkState 2 2 0 0) rfl).1
      (by rw [horizontal_ratio_mkState]; norm_num)
      (by rw [vertical_ratio_mkState]; norm_num),
   (C3_example_scenarios (mkState 5 5 0 0) rfl).2.1
      (by rw [horizontal_ratio_mkState]; norm_num)
      (by rw [vertical_ratio_mkState]; norm_num),
   (C3_example_scenarios (mkState 8 9 0 0) rfl).2.2
      (by rw [horizontal_ratio_mkState]; norm_num)
      (by rw [vertical_ratio_mkState]; norm_num)⟩

/-- C7: for every located state with defined ratios `r` and `v`,
`true_gaze_direction()` is `h_offset + v_offset`, where the horizontal
zone is `right` iff `r ≤ RIGHT_THRESHOLD` (boundary inclusive), `left` iff
`r ≥ LEFT_THRESHOLD`, else `center` (`h_offset` ∈ {0 left, 1 center,
2 right}), and the vertical zone analogously with `TOP_THRESHOLD` /
`BOTTOM_THRESHOLD` (`v_offset` ∈ {0 top, 3 middle, 6 bottom}). -/
theorem C7_grid {Frame : Type} (g : GazeTracking Frame)
    (hp : pupils_located g = true) (r v : ℚ)
    (hhr : horizontal_ratio g = .ok (some r))
    (hvr : vertical_ratio g = .ok (some v)) :
    true_gaze_direction g = .ok (h_offset r + v_offset v)
    ∧ (h_offset r = 2 ↔ r ≤ RIGHT_THRESHOLD)
    ∧ (h_offset r = 0 ↔ r ≥ LEFT_THRESHOLD)
    ∧ (h_offset r = 1 ↔ (RIGHT_THRESHOLD < r ∧ r < LEFT_THRESHOLD))
    ∧ (v_offset v = 0 ↔ v ≤ TOP_THRESHOLD)
    ∧ (v_offset v = 6 ↔ v ≥ BOTTOM_THRESHOLD)
    ∧ (v_offset v = 3 ↔ (TOP_THRESHOLD < v ∧ v < BOTTOM_THRESHOLD)) := by
  have hRL : RIGHT_THRESHOLD < LEFT_THRESHOLD := by
    norm_num [RIGHT_THRESHOLD, LEFT_THRESHOLD]
  have hTB : TOP_THRESHOLD < BOTTOM_THRESHOLD := by
    norm_num [TOP_THRESHOLD, BOTTOM_THRESHOLD]
  refine ⟨true_gaze_direction_of hp hhr hvr, ?_, ?_, ?_, ?_, ?_, ?_⟩ <;>
    (simp only [h_offset, v_offset]; split_ifs <;> constructor <;> intro h <;>
      first
        | rfl
        | assumption
        | contradiction
        | (exfalso; linarith)
        | (exfalso; rcases h with ⟨hA, hB⟩; linarith)
        | (push_neg at *; constructor <;> linarith))

/-- C7 witness: at a concrete located state with ratios `(0.2, 0.2)`
the direction is the grid cell `h_offset 0.2 + v_offset 0.2`. -/
theorem C7_grid_witness :
    true_gaze_direction (mkState 2 2 0 0) =
      .ok (h_offset 0.2 + v_offset 0.2) :=
  (C7_grid (mkState 2 2 0 0) rfl 0.2 0.2
    (by rw [horizontal_ratio_mkState]; norm_num)
    (by rw [vertical_ratio_mkState]; norm_num)).1

/-- C10 witness: at a concrete located state the two wink predicates are
not both `True`. -/
theorem C10_winks_exclusive_witness :
    ¬(is_winking_right (mkState 5 5 4.6 4.0) = .ok (some true) ∧
      is_winking_left (mkState 5 5 4.6 4.0) = .ok (some true)) :=
  C10_winks_exclusive (mkState 5 5 4.6 4.0) rfl

end GazeTrack
